import Mathlib

/-!
# Verification of the MySQL MCP server pipeline (`mcp_server.py`)

Shallow embedding of the natural-language-query pipeline of
`mcp_server.py`: the Ollama model client (`query_ollama`,
`natural_language_to_sql`), the schema introspector
(`get_database_schema`), the query executor (`execute_sql_query`) and the
table helpers (`list_tables`, `describe_table`, `get_table_data`).

The database driver and the HTTP client are external collaborators; they
are modelled by a `World` record holding their per-call behaviour.  Each
embedded operation returns the string the Python function returns,
paired with the trace of collaborator events (connection open/close,
cursor open/close, statements issued, fetches, commits, HTTP posts) that
occurred during the call, in order.  Python exceptions are modelled as
`Except String` values that propagate to the operation boundary exactly
where the source's `try`/`except` blocks catch them.

Python `str` methods used by the source (`strip`, `upper`,
`startswith`, `join`) are modelled by executable character-level
functions (`pyStrip`, `pyUpper`, `pyStartsWith`, `pyJoin`) so that every
definition evaluates inside the kernel.
-/

/-! ## Python string primitives -/

/-- The six ASCII whitespace characters removed by Python's `str.strip()`
(Unicode whitespace beyond ASCII is not modelled; no claim depends on it). -/
def pyIsSpace (c : Char) : Bool :=
  c == ' ' || c == '\t' || c == '\n' || c == '\r' || c == '\x0b' || c == '\x0c'

/-- Python `str.strip()`: remove leading and trailing whitespace. -/
def pyStrip (s : String) : String :=
  String.mk (((s.data.dropWhile pyIsSpace).reverse.dropWhile pyIsSpace).reverse)

/-- Python `str.upper()` (ASCII case mapping, as used on SQL keywords). -/
def pyUpper (s : String) : String :=
  String.mk (s.data.map Char.toUpper)

/-- Python `s.startswith(p)`. -/
def pyStartsWith (s p : String) : Bool :=
  p.data.isPrefixOf s.data

/-- Python `sep.join(xs)`. -/
def pyJoin (sep : String) : List String → String
  | [] => ""
  | [s] => s
  | s :: ss => s ++ sep ++ pyJoin sep ss

/-! ## Data model -/

/-- One record of a dictionary cursor: an ordered association of column
name to the `str()` rendering of the value (values reach the output only
through `str(...)`, so they are modelled directly as strings). -/
abbrev Row := List (String × String)

/-- `row[key]` on a dictionary-cursor row.  A missing key raises
`KeyError` in Python; no embedded code path exercised by a claim reads a
key its cursor row lacks, so the lookup defaults to `""`. -/
def rowGet (r : Row) (k : String) : String :=
  (r.lookup k).getD ""

/-- `list(row.values())[0]`, the first value of a cursor row (used on
`SHOW TABLES` rows, which always have exactly one column). -/
def firstValue (r : Row) : String :=
  ((r.map Prod.snd).headD "")

/-- The JSON body sent by `requests.post` in `query_ollama`:
`{"model": ..., "prompt": ..., "stream": false}`. -/
structure OllamaRequest where
  model : String
  prompt : String
  stream : Bool
deriving DecidableEq

/-- Collaborator events observable during one operation, in order. -/
inductive Event where
  /-- `mysql.connector.connect(**DB_CONFIG)` succeeded. -/
  | connOpen
  /-- `connection.cursor(...)` was created. -/
  | curOpen
  /-- `cursor.execute(sql)` was issued (whether or not it succeeded). -/
  | exec (sql : String)
  /-- `cursor.fetchall()` was called. -/
  | fetch
  /-- `connection.commit()` succeeded. -/
  | commit
  /-- `cursor.close()` was called. -/
  | curClose
  /-- `connection.close()` was called. -/
  | connClose
  /-- `requests.post(url, json=req)` was issued. -/
  | post (url : String) (req : OllamaRequest)
deriving DecidableEq

/-- Outcome of the single `requests.post` call: a transport-level
exception, or an HTTP response with a status code and the optional
`"response"` string field of its JSON body. -/
inductive HttpOutcome where
  | err (msg : String)
  | resp (status : Nat) (respField : Option String)

/-- Per-call behaviour of the external collaborators, plus the
environment configuration loaded at process start (`OLLAMA_URL`,
`OLLAMA_MODEL`).  `exec sql` bundles `cursor.execute(sql)` together with
the row data the cursor subsequently yields and the driver-reported
`cursor.rowcount`; `.error` means the driver raised. -/
structure World where
  /-- `some e` when `mysql.connector.connect` raises with message `e`. -/
  connectErr : Option String
  /-- Behaviour of `cursor.execute` (and the cursor's subsequent
  fetches) for each statement string. -/
  exec : String → Except String (List Row × Int)
  /-- `some e` when `connection.commit()` raises with message `e`. -/
  commitErr : Option String
  /-- Behaviour of the single HTTP POST to the Ollama endpoint. -/
  ollama : OllamaRequest → HttpOutcome
  /-- `OLLAMA_URL`. -/
  ollamaUrl : String
  /-- `OLLAMA_MODEL`. -/
  ollamaModel : String

/-! ## Model client (`query_ollama`, `natural_language_to_sql`) -/

/-- `query_ollama` (lines 79–93): one POST to `{OLLAMA_URL}/api/generate`
with body `{model, prompt, stream: false}`.  On HTTP 200 it returns
`response.json().get("response", "")`; any other status raises
`Exception("Ollama API error")` which the function's own handler rewraps
as `Ollama query error: ...`; a transport failure is rewrapped the same
way. -/
def query_ollama (w : World) (prompt : String) : Except String String × List Event :=
  let req : OllamaRequest := { model := w.ollamaModel, prompt := prompt, stream := false }
  let evs := [Event.post (w.ollamaUrl ++ "/api/generate") req]
  match w.ollama req with
  | .err e => (.error ("Ollama query error: " ++ e), evs)
  | .resp status body =>
    if status == 200 then (.ok (body.getD ""), evs)
    else (.error "Ollama query error: Ollama API error", evs)

/-- The prompt template of `natural_language_to_sql` (lines 98–106),
byte-for-byte including the indentation of the Python triple-quoted
string. -/
def nlqPrompt (natural_query schema_info : String) : String :=
  "You are a SQL expert. Convert the following natural language query to SQL.\n    \n        Database Schema:\n        "
    ++ schema_info
    ++ "\n\n        Natural Language Query: "
    ++ natural_query
    ++ "\n\n        Return only the SQL query without any explanation or formatting:\n    "

/-- `natural_language_to_sql` (lines 96–107): build the prompt and call
`query_ollama`.  No cleanup of any kind is applied to the response. -/
def natural_language_to_sql (w : World) (natural_query schema_info : String) :
    Except String String × List Event :=
  query_ollama w (nlqPrompt natural_query schema_info)

/-! ## Schema introspector (`get_database_schema`) -/

/-- One column line of the schema text (lines 130–142). -/
def describeColLine (column : Row) : String :=
  let col_name := rowGet column "Field"
  let col_type := rowGet column "Type"
  let col_null := if rowGet column "Null" == "YES" then "NULL" else "NOT NULL"
  let col_key := rowGet column "Key"
  let col_default := rowGet column "Default"
  "  - " ++ col_name ++ ": " ++ col_type ++ " " ++ col_null
    ++ (if col_key == "" then "" else " " ++ col_key)
    ++ (if col_default == "" then "" else " DEFAULT " ++ col_default)
    ++ "\n"

/-- The per-table loop of `get_database_schema` (lines 122–144): for each
table name, issue `DESCRIBE {t}` and render its columns; the first
driver error aborts the loop (the Python exception propagates to the
function's handler). -/
def schemaLoop (w : World) : List String → Except String String × List Event
  | [] => (.ok "", [])
  | t :: ts =>
    match w.exec ("DESCRIBE " ++ t) with
    | .error e => (.error e, [Event.exec ("DESCRIBE " ++ t)])
    | .ok (columns, _) =>
      let block := "Table: " ++ t ++ "\n" ++ String.join (columns.map describeColLine) ++ "\n"
      match schemaLoop w ts with
      | (.error e, evs) => (.error e, Event.exec ("DESCRIBE " ++ t) :: evs)
      | (.ok rest, evs) => (.ok (block ++ rest), Event.exec ("DESCRIBE " ++ t) :: evs)

/-- `get_database_schema` (lines 110–151): enumerate tables via
`SHOW TABLES`, describe each, and render the text; any exception is
caught and converted into the returned string
`Error getting schema: ...` (lines 149–151). -/
def get_database_schema (w : World) : String × List Event :=
  match w.connectErr with
  | some e => ("Error getting schema: Database connection error: " ++ e, [])
  | none =>
    match w.exec "SHOW TABLES" with
    | .error e => ("Error getting schema: " ++ e, [Event.connOpen, Event.curOpen, Event.exec "SHOW TABLES"])
    | .ok (tables, _) =>
      let names := tables.map firstValue
      match schemaLoop w names with
      | (.error e, evs) =>
        ("Error getting schema: " ++ e,
          [Event.connOpen, Event.curOpen, Event.exec "SHOW TABLES", Event.fetch] ++ evs)
      | (.ok body, evs) =>
        ("Database Schema:\n\n" ++ body,
          [Event.connOpen, Event.curOpen, Event.exec "SHOW TABLES", Event.fetch] ++ evs
            ++ [Event.curClose, Event.connClose])

/-! ## Query executor (`execute_sql_query`) -/

/-- The read/write classification of line 179:
`query.strip().upper().startswith("SELECT")`. -/
def isSelectQuery (query : String) : Bool :=
  pyStartsWith (pyUpper (pyStrip query)) "SELECT"

/-- The header row of the results table (line 193):
`"| " + " | ".join(headers) + " |"`. -/
def renderHeaderRow (headers : List String) : String :=
  "| " ++ pyJoin " | " headers ++ " |"

/-- The separator row (lines 194–196):
`"|" + "|".join(["-" * len(h) for h in headers]) + "|"`. -/
def renderSepRow (headers : List String) : String :=
  "|" ++ pyJoin "|" (headers.map (fun h => String.mk (List.replicate h.length '-'))) ++ "|"

/-- One data row (lines 199–204):
`"| " + " | ".join(str(row[h]) for h in headers) + " |"`. -/
def renderDataRow (headers : List String) (row : Row) : String :=
  "| " ++ pyJoin " | " (headers.map (fun h => rowGet row h)) ++ " |"

/-- The key order of the first record: `list(results[0].keys())`. -/
def headersOf (results : List Row) : List String :=
  (results.headD []).map Prod.fst

/-- The non-empty `SELECT` result rendering (lines 188–204). -/
def formatResults (results : List Row) : String :=
  let headers := headersOf results
  "Query Results (" ++ toString results.length ++ " rows):\n\n"
    ++ renderHeaderRow headers ++ "\n"
    ++ renderSepRow headers ++ "\n"
    ++ String.join (results.map (fun row => renderDataRow headers row ++ "\n"))

/-- `execute_sql_query` (lines 164–219): connect, execute; a statement
whose stripped upper-cased text starts with `SELECT` is fetched and
rendered (the empty result set yielding the fixed no-results message);
any other statement is committed and reported via `cursor.rowcount`.
Any exception is caught at the boundary (lines 218–219) and returned as
`Error executing query: ...` — note that on those paths the already
opened connection and cursor are not closed. -/
def execute_sql_query (w : World) (query : String) : String × List Event :=
  match w.connectErr with
  | some e => ("Error executing query: Database connection error: " ++ e, [])
  | none =>
    match w.exec query with
    | .error e => ("Error executing query: " ++ e, [Event.connOpen, Event.curOpen, Event.exec query])
    | .ok (results, rowcount) =>
      if isSelectQuery query then
        if results.isEmpty then
          ("Query executed successfully. No results returned.",
            [Event.connOpen, Event.curOpen, Event.exec query, Event.fetch,
             Event.curClose, Event.connClose])
        else
          (formatResults results,
            [Event.connOpen, Event.curOpen, Event.exec query, Event.fetch,
             Event.curClose, Event.connClose])
      else
        match w.commitErr with
        | some e =>
          ("Error executing query: " ++ e,
            [Event.connOpen, Event.curOpen, Event.exec query])
        | none =>
          ("Query executed successfully. " ++ toString rowcount ++ " rows affected.",
            [Event.connOpen, Event.curOpen, Event.exec query, Event.commit,
             Event.curClose, Event.connClose])

/-! ## `natural_language_query` -/

/-- `natural_language_query` (lines 222–240): introspect the schema
(errors already swallowed inside `get_database_schema`), translate via
the model, and execute the produced SQL verbatim.  Only an exception
raised by the model call reaches the boundary handler (lines 239–240),
because `execute_sql_query` catches its own. -/
def natural_language_query (w : World) (natural_query : String) : String × List Event :=
  let s := get_database_schema w
  let r := natural_language_to_sql w natural_query s.1
  match r.1 with
  | .error e => ("Error processing natural language query: " ++ e, s.2 ++ r.2)
  | .ok sql_query =>
    let x := execute_sql_query w sql_query
    (x.1, s.2 ++ r.2 ++ x.2)

/-! ## Table helpers (`list_tables`, `describe_table`, `get_table_data`) -/

/-- The numbered listing of lines 259–262:
`f"{i}. {name}\n"` for `i` counting from 1. -/
def renderNumbered (names : List String) : String :=
  String.join ((names.enumFrom 1).map (fun p => toString p.1 ++ ". " ++ p.2 ++ "\n"))

/-- `list_tables` (lines 243–267). -/
def list_tables (w : World) : String × List Event :=
  match w.connectErr with
  | some e => ("Error listing tables: Database connection error: " ++ e, [])
  | none =>
    match w.exec "SHOW TABLES" with
    | .error e => ("Error listing tables: " ++ e, [Event.connOpen, Event.curOpen, Event.exec "SHOW TABLES"])
    | .ok (tables, _) =>
      let evs := [Event.connOpen, Event.curOpen, Event.exec "SHOW TABLES", Event.fetch,
                  Event.curClose, Event.connClose]
      if tables.isEmpty then ("No tables found in the database.", evs)
      else
        ("Tables in the database:\n\n" ++ renderNumbered (tables.map (fun r => firstValue r)), evs)

/-- The column detail block of `describe_table` (lines 307–312);
`x or 'None'` renders falsy values as `None`. -/
def describeTableCol (col : Row) : String :=
  "- " ++ rowGet col "Field" ++ ": " ++ rowGet col "Type" ++ "\n"
    ++ "  - Null: " ++ (if rowGet col "Null" == "YES" then "YES" else "NO") ++ "\n"
    ++ "  - Key: " ++ (if rowGet col "Key" == "" then "None" else rowGet col "Key") ++ "\n"
    ++ "  - Default: " ++ (if rowGet col "Default" == "" then "None" else rowGet col "Default") ++ "\n"
    ++ "  - Extra: " ++ (if rowGet col "Extra" == "" then "None" else rowGet col "Extra") ++ "\n\n"

/-- `describe_table` (lines 270–317): check existence against
`SHOW TABLES`; an absent table closes the resources and reports the
available names; otherwise `DESCRIBE` and a `COUNT(*)` are issued and
rendered.  Exceptions are caught at the boundary (lines 316–317). -/
def describe_table (w : World) (table_name : String) : String × List Event :=
  match w.connectErr with
  | some e => ("Error describing table: Database connection error: " ++ e, [])
  | none =>
    match w.exec "SHOW TABLES" with
    | .error e => ("Error describing table: " ++ e, [Event.connOpen, Event.curOpen, Event.exec "SHOW TABLES"])
    | .ok (trows, _) =>
      let tables := trows.map firstValue
      let ev0 := [Event.connOpen, Event.curOpen, Event.exec "SHOW TABLES", Event.fetch]
      if tables.contains table_name then
        match w.exec ("DESCRIBE " ++ table_name) with
        | .error e => ("Error describing table: " ++ e, ev0 ++ [Event.exec ("DESCRIBE " ++ table_name)])
        | .ok (columns, _) =>
          match w.exec ("SELECT COUNT(*) as count FROM " ++ table_name) with
          | .error e =>
            ("Error describing table: " ++ e,
              ev0 ++ [Event.exec ("DESCRIBE " ++ table_name),
                      Event.exec ("SELECT COUNT(*) as count FROM " ++ table_name)])
          | .ok (crows, _) =>
            match crows.head? with
            | none =>
              -- `cursor.fetchone()` returned `None`; subscripting raises `TypeError`.
              ("Error describing table: \x27NoneType\x27 object is not subscriptable",
                ev0 ++ [Event.exec ("DESCRIBE " ++ table_name),
                        Event.exec ("SELECT COUNT(*) as count FROM " ++ table_name)])
            | some r0 =>
              ("Table: " ++ table_name ++ "\n" ++ "Rows: " ++ rowGet r0 "count" ++ "\n\n"
                 ++ "Columns:\n\n" ++ String.join (columns.map describeTableCol),
                ev0 ++ [Event.exec ("DESCRIBE " ++ table_name),
                        Event.exec ("SELECT COUNT(*) as count FROM " ++ table_name),
                        Event.curClose, Event.connClose])
      else
        ("Table \x27" ++ table_name ++ "\x27 not found. Available tables: " ++ pyJoin ", " tables,
          ev0 ++ [Event.curClose, Event.connClose])

/-- `get_table_data` (lines 320–369): same existence check, then
`SELECT * FROM {t} LIMIT {limit}`, closing the resources before the
empty check, and the same table rendering as `execute_sql_query`. -/
def get_table_data (w : World) (table_name : String) (limit : Int) : String × List Event :=
  match w.connectErr with
  | some e => ("Error getting table data: Database connection error: " ++ e, [])
  | none =>
    match w.exec "SHOW TABLES" with
    | .error e => ("Error getting table data: " ++ e, [Event.connOpen, Event.curOpen, Event.exec "SHOW TABLES"])
    | .ok (trows, _) =>
      let tables := trows.map firstValue
      let ev0 := [Event.connOpen, Event.curOpen, Event.exec "SHOW TABLES", Event.fetch]
      if tables.contains table_name then
        let q := "SELECT * FROM " ++ table_name ++ " LIMIT " ++ toString limit
        match w.exec q with
        | .error e => ("Error getting table data: " ++ e, ev0 ++ [Event.exec q])
        | .ok (results, _) =>
          let ev1 := ev0 ++ [Event.exec q, Event.fetch, Event.curClose, Event.connClose]
          if results.isEmpty then
            ("No data found in table \x27" ++ table_name ++ "\x27.", ev1)
          else
            let headers := headersOf results
            ("Sample data from " ++ table_name ++ " (showing " ++ toString results.length
               ++ " rows):\n\n"
               ++ renderHeaderRow headers ++ "\n"
               ++ renderSepRow headers ++ "\n"
               ++ String.join (results.map (fun row => renderDataRow headers row ++ "\n")), ev1)
      else
        ("Table \x27" ++ table_name ++ "\x27 not found. Available tables: " ++ pyJoin ", " tables,
          ev0 ++ [Event.curClose, Event.connClose])

/-! ## Concrete collaborator behaviours used by witnesses -/

/-- A healthy world: connecting succeeds, every statement succeeds with
an empty row set and rowcount 3, the model endpoint is down. -/
def wOk : World :=
  { connectErr := none
    exec := fun _ => .ok ([], 3)
    commitErr := none
    ollama := fun _ => .err "model down"
    ollamaUrl := "http://localhost:11434"
    ollamaModel := "llama3.2" }

/-- A world whose driver raises on every statement. -/
def wExecFail : World :=
  { connectErr := none
    exec := fun _ => .error "You have an error in your SQL syntax"
    commitErr := none
    ollama := fun _ => .err "model down"
    ollamaUrl := "http://localhost:11434"
    ollamaModel := "llama3.2" }

/-- A world in which connecting to the database fails. -/
def wConnFail : World :=
  { connectErr := some "Can\x27t connect to MySQL server"
    exec := fun _ => .error "no connection"
    commitErr := none
    ollama := fun _ => .err "Connection refused"
    ollamaUrl := "http://localhost:11434"
    ollamaModel := "llama3.2" }

/-! ## String helper lemmas -/

theorem string_data_append (a b : String) : (a ++ b).data = a.data ++ b.data := by
  cases a
  cases b
  rfl

theorem isPrefixOf_append_of_length_le :
    ∀ (p a b : List Char), p.length ≤ a.length →
      (p.isPrefixOf (a ++ b)) = p.isPrefixOf a
  | [], _, _, _ => by simp [List.isPrefixOf]
  | c :: p, [], _, h => by simp at h
  | c :: p, d :: a, b, h => by
    simp [List.isPrefixOf, isPrefixOf_append_of_length_le p a b (Nat.le_of_succ_le_succ h)]

theorem pyStartsWith_append_right (a b p : String) (h : pyStartsWith a p = true) :
    pyStartsWith (a ++ b) p = true := by
  unfold pyStartsWith at h ⊢
  rw [string_data_append, List.isPrefixOf_iff_prefix] at *
  exact h.trans (List.prefix_append _ _)

/-! ## C1: read/write classification in `execute_sql_query` -/

/-- C1: a statement is treated as a read (full result set fetched and the
formatted row set returned) if and only if its stripped, upper-cased text
starts with `SELECT`; every other statement is committed and reported as
the driver-reported affected-row count, and the result set is never
fetched for it. -/
theorem execute_sql_query_classification (w : World) (query : String)
    (results : List Row) (rowcount : Int)
    (hconn : w.connectErr = none) (hcommit : w.commitErr = none)
    (hexec : w.exec query = .ok (results, rowcount)) :
    (isSelectQuery query = true →
      execute_sql_query w query =
        ((if results.isEmpty then "Query executed successfully. No results returned."
          else formatResults results),
         [Event.connOpen, Event.curOpen, Event.exec query, Event.fetch,
          Event.curClose, Event.connClose]))
    ∧ (isSelectQuery query = false →
      execute_sql_query w query =
        ("Query executed successfully. " ++ toString rowcount ++ " rows affected.",
         [Event.connOpen, Event.curOpen, Event.exec query, Event.commit,
          Event.curClose, Event.connClose]))
    ∧ (isSelectQuery query = true ↔ Event.fetch ∈ (execute_sql_query w query).2)
    ∧ (isSelectQuery query = false ↔ Event.commit ∈ (execute_sql_query w query).2) := by
  cases hsel : isSelectQuery query with
  | true =>
    cases hres : results.isEmpty <;>
      simp [execute_sql_query, hconn, hcommit, hexec, hsel, hres]
  | false =>
    simp [execute_sql_query, hconn, hcommit, hexec, hsel]

/-- Witness for C1 at a concrete write statement. -/
theorem execute_sql_query_classification_witness :
    wOk.exec "UPDATE employees SET salary = 1" = Except.ok ([], (3 : Int)) ∧
    execute_sql_query wOk "UPDATE employees SET salary = 1" =
      ("Query executed successfully. " ++ toString (3 : Int) ++ " rows affected.",
       [Event.connOpen, Event.curOpen, Event.exec "UPDATE employees SET salary = 1",
        Event.commit, Event.curClose, Event.connClose]) :=
  ⟨rfl,
    (execute_sql_query_classification wOk "UPDATE employees SET salary = 1" [] 3
      rfl rfl rfl).2.1 (by decide)⟩

/-! ## C2: resource release on error paths -/

/-- C2: the code violates the claim.  When the driver raises on
`cursor.execute`, `execute_sql_query` returns the error string from its
`except` handler with the connection and cursor it opened still
unclosed: there is no `finally` block, so no close happens on the error
exit path. -/
theorem execute_sql_query_leaks_connection_on_driver_error :
    pyStartsWith (execute_sql_query wExecFail "SELECT * FROM missing_table").1 "Error" = true ∧
    Event.connOpen ∈ (execute_sql_query wExecFail "SELECT * FROM missing_table").2 ∧
    Event.curOpen ∈ (execute_sql_query wExecFail "SELECT * FROM missing_table").2 ∧
    Event.connClose ∉ (execute_sql_query wExecFail "SELECT * FROM missing_table").2 ∧
    Event.curClose ∉ (execute_sql_query wExecFail "SELECT * FROM missing_table").2 := by
  decide

/-! ## C7: empty `SELECT` result -/

/-- C7: a statement classified as a read that yields zero rows produces
the literal no-results message, which is not an error string. -/
theorem select_empty_result_message (w : World) (query : String) (rowcount : Int)
    (hconn : w.connectErr = none) (hexec : w.exec query = .ok ([], rowcount))
    (hsel : isSelectQuery query = true) :
    (execute_sql_query w query).1 = "Query executed successfully. No results returned." ∧
    pyStartsWith (execute_sql_query w query).1 "Error" = false := by
  simp [execute_sql_query, hconn, hexec, hsel]
  decide

/-- Witness for C7. -/
theorem select_empty_result_message_witness :
    wOk.exec "SELECT * FROM employees" = Except.ok ([], (3 : Int)) ∧
    ((execute_sql_query wOk "SELECT * FROM employees").1 =
        "Query executed successfully. No results returned." ∧
      pyStartsWith (execute_sql_query wOk "SELECT * FROM employees").1 "Error" = false) :=
  ⟨rfl, select_empty_result_message wOk "SELECT * FROM employees" 3 rfl rfl (by decide)⟩

/-! ## C3: schema-introspection failure inside the pipeline -/

/-- `True` exactly on HTTP-post events. -/
def isPostEvent : Event → Bool
  | .post _ _ => true
  | _ => false

/-- C3 counterexample: with the database connection failing,
`natural_language_query` still performs the HTTP POST to the model — the
pipeline is not aborted, refuting the claim that the model is never
invoked after a connection failure. -/
theorem connection_failure_still_invokes_model :
    (get_database_schema wConnFail).1 =
      "Error getting schema: Database connection error: Can\x27t connect to MySQL server" ∧
    (natural_language_query wConnFail "show all users").2.any isPostEvent = true := by
  decide

/-- C3 amended: a connection failure during introspection is converted
into the returned error-description string, and `natural_language_query`
embeds that string into the prompt and still invokes the model. -/
theorem schema_error_feeds_prompt (w : World) (nq e : String)
    (hconn : w.connectErr = some e) :
    get_database_schema w =
      ("Error getting schema: Database connection error: " ++ e, []) ∧
    Event.post (w.ollamaUrl ++ "/api/generate")
        { model := w.ollamaModel,
          prompt := nlqPrompt nq ("Error getting schema: Database connection error: " ++ e),
          stream := false }
      ∈ (natural_language_query w nq).2 := by
  have hs : get_database_schema w =
      ("Error getting schema: Database connection error: " ++ e, []) := by
    simp [get_database_schema, hconn]
  refine ⟨hs, ?_⟩
  simp only [natural_language_query, natural_language_to_sql, query_ollama, hs]
  cases h : w.ollama
      { model := w.ollamaModel,
        prompt := nlqPrompt nq ("Error getting schema: Database connection error: " ++ e),
        stream := false } with
  | err m => simp [h]
  | resp s b => by_cases h2 : (s == 200) = true <;> simp [h, h2]

/-- Witness for the amended C3. -/
theorem schema_error_feeds_prompt_witness :
    wConnFail.connectErr = some "Can\x27t connect to MySQL server" ∧
    (get_database_schema wConnFail =
      ("Error getting schema: Database connection error: "
        ++ "Can\x27t connect to MySQL server", []) ∧
    Event.post (wConnFail.ollamaUrl ++ "/api/generate")
        { model := wConnFail.ollamaModel,
          prompt := nlqPrompt "show all users"
            ("Error getting schema: Database connection error: "
              ++ "Can\x27t connect to MySQL server"),
          stream := false }
      ∈ (natural_language_query wConnFail "show all users").2) :=
  ⟨rfl, schema_error_feeds_prompt wConnFail "show all users"
    "Can\x27t connect to MySQL server" rfl⟩

/-! ## C4: response cleanup before execution -/

/-- Modelled from the spec: "Response cleanup strips leading/trailing
whitespace and any ```sql / ``` fence markers."  This definition follows
the spec's words; it exists only to be compared with what the source
actually does (which is: nothing). -/
def cleanupSpec (s : String) : String :=
  let t1 := pyStrip s
  let t2 :=
    if pyStartsWith t1 "```sql" then String.mk (t1.data.drop 6)
    else if pyStartsWith t1 "```" then String.mk (t1.data.drop 3)
    else t1
  let t3 :=
    if "```".data.isSuffixOf t2.data then String.mk (t2.data.take (t2.data.length - 3))
    else t2
  pyStrip t3

/-- A world whose model returns a fenced completion with HTTP 200. -/
def wFenced : World :=
  { connectErr := none
    exec := fun _ => .error "You have an error in your SQL syntax"
    commitErr := none
    ollama := fun _ => .resp 200 (some "```sql\nSELECT 1;\n```")
    ollamaUrl := "http://localhost:11434"
    ollamaModel := "llama3.2" }

/-- C4 counterexample: the fenced model response reaches
`cursor.execute` verbatim, fences included, although the spec's cleanup
would have reduced it to `SELECT 1;` — no cleanup step exists in the
code. -/
theorem fenced_response_reaches_executor :
    Event.exec "```sql\nSELECT 1;\n```"
      ∈ (natural_language_query wFenced "select one").2 ∧
    cleanupSpec "```sql\nSELECT 1;\n```" = "SELECT 1;" ∧
    "```sql\nSELECT 1;\n```" ≠ "SELECT 1;" := by
  decide

/-- C4 amended: the model client applies no cleanup at all — whenever the
endpoint answers HTTP 200 with response text `resp`, the pipeline passes
`resp` itself, unchanged, to the query executor (so on an already-clean
SQL string the pass-through is trivially a no-op). -/
theorem model_response_passed_verbatim (w : World) (nq resp : String)
    (h : w.ollama { model := w.ollamaModel,
                    prompt := nlqPrompt nq (get_database_schema w).1,
                    stream := false } = .resp 200 (some resp)) :
    natural_language_query w nq =
      ((execute_sql_query w resp).1,
       (get_database_schema w).2
         ++ [Event.post (w.ollamaUrl ++ "/api/generate")
              { model := w.ollamaModel,
                prompt := nlqPrompt nq (get_database_schema w).1,
                stream := false }]
         ++ (execute_sql_query w resp).2) := by
  simp [natural_language_query, natural_language_to_sql, query_ollama, h]

/-- Witness for the amended C4. -/
theorem model_response_passed_verbatim_witness :
    wFenced.ollama { model := wFenced.ollamaModel,
                     prompt := nlqPrompt "select one" (get_database_schema wFenced).1,
                     stream := false } = .resp 200 (some "```sql\nSELECT 1;\n```") ∧
    natural_language_query wFenced "select one" =
      ((execute_sql_query wFenced "```sql\nSELECT 1;\n```").1,
       (get_database_schema wFenced).2
         ++ [Event.post (wFenced.ollamaUrl ++ "/api/generate")
              { model := wFenced.ollamaModel,
                prompt := nlqPrompt "select one" (get_database_schema wFenced).1,
                stream := false }]
         ++ (execute_sql_query wFenced "```sql\nSELECT 1;\n```").2) :=
  ⟨rfl, model_response_passed_verbatim wFenced "select one" "```sql\nSELECT 1;\n```" rfl⟩

/-! ## C5: the model-client HTTP contract -/

/-- A world whose model endpoint answers HTTP 200 with a completion. -/
def wOll200 : World :=
  { connectErr := none
    exec := fun _ => .ok ([], 0)
    commitErr := none
    ollama := fun _ => .resp 200 (some "SELECT 1")
    ollamaUrl := "http://localhost:11434"
    ollamaModel := "llama3.2" }

/-- A world whose model endpoint answers HTTP 500. -/
def wOll500 : World :=
  { connectErr := none
    exec := fun _ => .ok ([], 0)
    commitErr := none
    ollama := fun _ => .resp 500 none
    ollamaUrl := "http://localhost:11434"
    ollamaModel := "llama3.2" }

/-- C5: `query_ollama` issues exactly one POST to
`{endpoint}/api/generate` with body `{model, prompt, stream: false}`; on
HTTP 200 it returns the `response` field, on any other status or on a
transport failure it fails with the Ollama-specific error (a single
attempt, no retry), and `natural_language_query` surfaces that failure
as a model error — never as the executor's database-error string. -/
theorem query_ollama_contract (w : World) (prompt : String) :
    (query_ollama w prompt).2 =
      [Event.post (w.ollamaUrl ++ "/api/generate")
        { model := w.ollamaModel, prompt := prompt, stream := false }] ∧
    (∀ body, w.ollama { model := w.ollamaModel, prompt := prompt, stream := false }
        = .resp 200 body →
      (query_ollama w prompt).1 = .ok (body.getD "")) ∧
    (∀ m, w.ollama { model := w.ollamaModel, prompt := prompt, stream := false }
        = .err m →
      (query_ollama w prompt).1 = .error ("Ollama query error: " ++ m)) ∧
    (∀ s body, w.ollama { model := w.ollamaModel, prompt := prompt, stream := false }
        = .resp s body → s ≠ 200 →
      (query_ollama w prompt).1 = .error "Ollama query error: Ollama API error") ∧
    (∀ nq m, w.ollama { model := w.ollamaModel,
                        prompt := nlqPrompt nq (get_database_schema w).1,
                        stream := false } = .err m →
      (natural_language_query w nq).1 =
        "Error processing natural language query: " ++ ("Ollama query error: " ++ m) ∧
      pyStartsWith (natural_language_query w nq).1 "Error executing query: " = false) := by
  refine ⟨?_, ?_, ?_, ?_, ?_⟩
  · cases h : w.ollama { model := w.ollamaModel, prompt := prompt, stream := false } with
    | err m => simp [query_ollama, h]
    | resp s b => by_cases h2 : (s == 200) = true <;> simp [query_ollama, h, h2]
  · intro body h
    simp [query_ollama, h]
  · intro m h
    simp [query_ollama, h]
  · intro s body h hs
    have h2 : (s == 200) = false := by simpa using hs
    simp [query_ollama, h, h2]
  · intro nq m h
    have he : (natural_language_query w nq).1 =
        "Error processing natural language query: " ++ ("Ollama query error: " ++ m) := by
      simp [natural_language_query, natural_language_to_sql, query_ollama, h]
    refine ⟨he, ?_⟩
    rw [he]
    unfold pyStartsWith
    rw [string_data_append, string_data_append, ← List.append_assoc,
      isPrefixOf_append_of_length_le]
    · decide
    · decide

/-- Witness for C5, exercising the 200, transport-failure and non-200
branches and the pipeline surfacing. -/
theorem query_ollama_contract_witness :
    ((query_ollama wOll200 "p").1 = .ok ((some "SELECT 1").getD "")) ∧
    ((query_ollama wOk "p").1 = .error ("Ollama query error: " ++ "model down")) ∧
    ((query_ollama wOll500 "p").1 = .error "Ollama query error: Ollama API error") ∧
    ((natural_language_query wOk "list users").1 =
        "Error processing natural language query: " ++ ("Ollama query error: " ++ "model down") ∧
      pyStartsWith (natural_language_query wOk "list users").1 "Error executing query: " = false) :=
  ⟨(query_ollama_contract wOll200 "p").2.1 (some "SELECT 1") rfl,
   (query_ollama_contract wOk "p").2.2.1 "model down" rfl,
   (query_ollama_contract wOll500 "p").2.2.2.1 500 none rfl (by decide),
   (query_ollama_contract wOk "p").2.2.2.2 "list users" "model down" rfl⟩

/-! ## C10: HTTP 200 without a `response` field -/

/-- C10: an HTTP 200 body lacking the `response` field makes
`query_ollama` return `""` (via `.get("response", "")`), and the
pipeline then treats the empty string as the SQL statement: the executor
is invoked on `""`, and when a connection is available the empty
statement is actually issued to the driver. -/
theorem missing_response_field_yields_empty_sql (w : World) (nq : String)
    (h : w.ollama { model := w.ollamaModel,
                    prompt := nlqPrompt nq (get_database_schema w).1,
                    stream := false } = .resp 200 none) :
    (query_ollama w (nlqPrompt nq (get_database_schema w).1)).1 = .ok "" ∧
    natural_language_query w nq =
      ((execute_sql_query w "").1,
       (get_database_schema w).2
         ++ [Event.post (w.ollamaUrl ++ "/api/generate")
              { model := w.ollamaModel,
                prompt := nlqPrompt nq (get_database_schema w).1,
                stream := false }]
         ++ (execute_sql_query w "").2) ∧
    (w.connectErr = none → Event.exec "" ∈ (natural_language_query w nq).2) := by
  have he : natural_language_query w nq =
      ((execute_sql_query w "").1,
       (get_database_schema w).2
         ++ [Event.post (w.ollamaUrl ++ "/api/generate")
              { model := w.ollamaModel,
                prompt := nlqPrompt nq (get_database_schema w).1,
                stream := false }]
         ++ (execute_sql_query w "").2) := by
    simp [natural_language_query, natural_language_to_sql, query_ollama, h]
  refine ⟨by simp [query_ollama, h], he, ?_⟩
  intro hc
  rw [he]
  have hsel : isSelectQuery "" = false := by decide
  simp only [List.mem_append]
  right
  cases hx : w.exec "" with
  | error e => simp [execute_sql_query, hc, hx]
  | ok p =>
    obtain ⟨rows, rc⟩ := p
    cases hcm : w.commitErr <;>
      simp [execute_sql_query, hc, hx, hsel, hcm]

/-- A world answering HTTP 200 with a JSON body lacking `response`. -/
def wOll200None : World :=
  { connectErr := none
    exec := fun _ => .ok ([], 0)
    commitErr := none
    ollama := fun _ => .resp 200 none
    ollamaUrl := "http://localhost:11434"
    ollamaModel := "llama3.2" }

/-- Witness for C10. -/
theorem missing_response_field_yields_empty_sql_witness :
    wOll200None.ollama { model := wOll200None.ollamaModel,
                         prompt := nlqPrompt "list users" (get_database_schema wOll200None).1,
                         stream := false } = .resp 200 none ∧
    ((query_ollama wOll200None (nlqPrompt "list users" (get_database_schema wOll200None).1)).1
        = .ok "" ∧
     natural_language_query wOll200None "list users" =
       ((execute_sql_query wOll200None "").1,
        (get_database_schema wOll200None).2
          ++ [Event.post (wOll200None.ollamaUrl ++ "/api/generate")
               { model := wOll200None.ollamaModel,
                 prompt := nlqPrompt "list users" (get_database_schema wOll200None).1,
                 stream := false }]
          ++ (execute_sql_query wOll200None "").2) ∧
     (wOll200None.connectErr = none →
       Event.exec "" ∈ (natural_language_query wOll200None "list users").2)) :=
  ⟨rfl, missing_response_field_yields_empty_sql wOll200None "list users" rfl⟩

/-! ## C6: unknown table names -/

/-- C6: for a table name absent from `SHOW TABLES`, `describe_table` and
`get_table_data` return the not-found message enumerating exactly the
table names derived from the same `SHOW TABLES` answer that
`list_tables` renders, close their resources, and issue no statement
other than `SHOW TABLES` (in particular no `DESCRIBE`). -/
theorem table_not_found (w : World) (table_name : String) (trows : List Row) (n : Int)
    (hconn : w.connectErr = none)
    (hshow : w.exec "SHOW TABLES" = .ok (trows, n))
    (habs : (trows.map firstValue).contains table_name = false) :
    describe_table w table_name =
      ("Table \x27" ++ table_name ++ "\x27 not found. Available tables: "
         ++ pyJoin ", " (trows.map firstValue),
       [Event.connOpen, Event.curOpen, Event.exec "SHOW TABLES", Event.fetch,
        Event.curClose, Event.connClose]) ∧
    (∀ lim : Int, get_table_data w table_name lim =
      ("Table \x27" ++ table_name ++ "\x27 not found. Available tables: "
         ++ pyJoin ", " (trows.map firstValue),
       [Event.connOpen, Event.curOpen, Event.exec "SHOW TABLES", Event.fetch,
        Event.curClose, Event.connClose])) ∧
    (trows ≠ [] → list_tables w =
      ("Tables in the database:\n\n" ++ renderNumbered (trows.map firstValue),
       [Event.connOpen, Event.curOpen, Event.exec "SHOW TABLES", Event.fetch,
        Event.curClose, Event.connClose])) ∧
    (∀ s, Event.exec s ∈ (describe_table w table_name).2 → s = "SHOW TABLES") ∧
    (∀ lim : Int, ∀ s, Event.exec s ∈ (get_table_data w table_name lim).2 →
      s = "SHOW TABLES") := by
  have h1 : describe_table w table_name =
      ("Table \x27" ++ table_name ++ "\x27 not found. Available tables: "
         ++ pyJoin ", " (trows.map firstValue),
       [Event.connOpen, Event.curOpen, Event.exec "SHOW TABLES", Event.fetch,
        Event.curClose, Event.connClose]) := by
    simp only [describe_table, hconn, hshow, habs, Bool.false_eq_true, if_false]
    rfl
  have h2 : ∀ lim : Int, get_table_data w table_name lim =
      ("Table \x27" ++ table_name ++ "\x27 not found. Available tables: "
         ++ pyJoin ", " (trows.map firstValue),
       [Event.connOpen, Event.curOpen, Event.exec "SHOW TABLES", Event.fetch,
        Event.curClose, Event.connClose]) := by
    intro lim
    simp only [get_table_data, hconn, hshow, habs, Bool.false_eq_true, if_false]
    rfl
  refine ⟨h1, h2, ?_, ?_, ?_⟩
  · intro hne
    have hemp : trows.isEmpty = false := by
      cases trows with
      | nil => exact absurd rfl hne
      | cons a l => rfl
    simp [list_tables, hconn, hshow, hemp]
  · intro s hs
    rw [h1] at hs
    simp at hs
    exact hs
  · intro lim s hs
    rw [h2 lim] at hs
    simp at hs
    exact hs

/-- A world with two tables, `employees` and `departments`. -/
def wTables : World :=
  { connectErr := none
    exec := fun q =>
      if q == "SHOW TABLES" then
        .ok ([[("Tables_in_test_db", "employees")], [("Tables_in_test_db", "departments")]], 2)
      else .error "unexpected statement"
    commitErr := none
    ollama := fun _ => .err "model down"
    ollamaUrl := "http://localhost:11434"
    ollamaModel := "llama3.2" }

/-- Witness for C6: `describe_table("users")` against the two-table
schema. -/
theorem table_not_found_witness :
    wTables.exec "SHOW TABLES" =
      .ok ([[("Tables_in_test_db", "employees")], [("Tables_in_test_db", "departments")]],
        (2 : Int)) ∧
    (([[("Tables_in_test_db", "employees")], [("Tables_in_test_db", "departments")]]
        : List Row).map firstValue).contains "users" = false ∧
    describe_table wTables "users" =
      ("Table \x27users\x27 not found. Available tables: employees, departments",
       [Event.connOpen, Event.curOpen, Event.exec "SHOW TABLES", Event.fetch,
        Event.curClose, Event.connClose]) ∧
    (∀ s, Event.exec s ∈ (describe_table wTables "users").2 → s = "SHOW TABLES") :=
  ⟨rfl, by decide,
   (table_not_found wTables "users"
     [[("Tables_in_test_db", "employees")], [("Tables_in_test_db", "departments")]] 2
     rfl rfl (by decide)).1,
   (table_not_found wTables "users"
     [[("Tables_in_test_db", "employees")], [("Tables_in_test_db", "departments")]] 2
     rfl rfl (by decide)).2.2.2.1⟩

/-! ## C8: every boundary converts failures into `Error ...` strings -/

/-- C8: the externally callable operations are total in this model (no
exception escapes them), and on every failure path the string handed
back starts with `Error`: connection failure for each of the six
operations; driver failure of the executor's statement; commit failure;
driver failure of `SHOW TABLES` in the four operations that issue it;
driver failure of `DESCRIBE`, of the `COUNT(*)` query, an empty
`COUNT(*)` cursor (`fetchone()` returning `None`), and driver failure
of the `LIMIT` query on the found-table branches; driver failure inside
the introspection loop; and both model failures inside
`natural_language_query`.  When the model succeeds, the pipeline
returns the executor's string, whose own failure cases are the ones
already covered. -/
theorem boundary_error_strings (w : World) (q t nq : String) (lim : Int) (e m : String) :
    (w.connectErr = some e →
      pyStartsWith (execute_sql_query w q).1 "Error" = true ∧
      pyStartsWith (list_tables w).1 "Error" = true ∧
      pyStartsWith (describe_table w t).1 "Error" = true ∧
      pyStartsWith (get_table_data w t lim).1 "Error" = true ∧
      pyStartsWith (get_database_schema w).1 "Error" = true ∧
      pyStartsWith (natural_language_query w nq).1 "Error" = true) ∧
    (w.connectErr = none → w.exec q = .error m →
      pyStartsWith (execute_sql_query w q).1 "Error" = true) ∧
    (w.connectErr = none → isSelectQuery q = false → w.commitErr = some m →
      ∀ (results : List Row) (rc : Int), w.exec q = .ok (results, rc) →
      pyStartsWith (execute_sql_query w q).1 "Error" = true) ∧
    (w.connectErr = none → w.exec "SHOW TABLES" = .error m →
      pyStartsWith (list_tables w).1 "Error" = true ∧
      pyStartsWith (describe_table w t).1 "Error" = true ∧
      pyStartsWith (get_table_data w t lim).1 "Error" = true ∧
      pyStartsWith (get_database_schema w).1 "Error" = true) ∧
    (w.connectErr = none → ∀ (trows : List Row) (n : Int),
      w.exec "SHOW TABLES" = .ok (trows, n) →
      (trows.map firstValue).contains t = true →
      (w.exec ("DESCRIBE " ++ t) = .error m →
        pyStartsWith (describe_table w t).1 "Error" = true) ∧
      (∀ (cols : List Row) (k : Int), w.exec ("DESCRIBE " ++ t) = .ok (cols, k) →
        (w.exec ("SELECT COUNT(*) as count FROM " ++ t) = .error m →
          pyStartsWith (describe_table w t).1 "Error" = true) ∧
        (∀ j : Int, w.exec ("SELECT COUNT(*) as count FROM " ++ t) = .ok ([], j) →
          pyStartsWith (describe_table w t).1 "Error" = true)) ∧
      (w.exec ("SELECT * FROM " ++ t ++ " LIMIT " ++ toString lim) = .error m →
        pyStartsWith (get_table_data w t lim).1 "Error" = true)) ∧
    (w.connectErr = none → ∀ (trows : List Row) (n : Int),
      w.exec "SHOW TABLES" = .ok (trows, n) →
      (schemaLoop w (trows.map firstValue)).1 = .error m →
      pyStartsWith (get_database_schema w).1 "Error" = true) ∧
    (∀ mm, w.ollama { model := w.ollamaModel,
                      prompt := nlqPrompt nq (get_database_schema w).1,
                      stream := false } = .err mm →
      pyStartsWith (natural_language_query w nq).1 "Error" = true) ∧
    (∀ s b, w.ollama { model := w.ollamaModel,
                       prompt := nlqPrompt nq (get_database_schema w).1,
                       stream := false } = .resp s b → s ≠ 200 →
      pyStartsWith (natural_language_query w nq).1 "Error" = true) ∧
    (∀ b, w.ollama { model := w.ollamaModel,
                     prompt := nlqPrompt nq (get_database_schema w).1,
                     stream := false } = .resp 200 b →
      (natural_language_query w nq).1 = (execute_sql_query w (b.getD "")).1) := by
  refine ⟨?_, ?_, ?_, ?_, ?_, ?_, ?_, ?_, ?_⟩
  · intro hc
    have hs : get_database_schema w =
        ("Error getting schema: Database connection error: " ++ e, []) := by
      simp [get_database_schema, hc]
    refine ⟨?_, ?_, ?_, ?_, ?_, ?_⟩
    · simp only [execute_sql_query, hc]
      exact pyStartsWith_append_right _ _ _ (by decide)
    · simp only [list_tables, hc]
      exact pyStartsWith_append_right _ _ _ (by decide)
    · simp only [describe_table, hc]
      exact pyStartsWith_append_right _ _ _ (by decide)
    · simp only [get_table_data, hc]
      exact pyStartsWith_append_right _ _ _ (by decide)
    · rw [hs]
      exact pyStartsWith_append_right _ _ _ (by decide)
    · simp only [natural_language_query, natural_language_to_sql, query_ollama, hs]
      cases h : w.ollama
          { model := w.ollamaModel,
            prompt := nlqPrompt nq ("Error getting schema: Database connection error: " ++ e),
            stream := false } with
      | err mm =>
        simp only [h]
        exact pyStartsWith_append_right _ _ _ (by decide)
      | resp s b =>
        by_cases h2 : (s == 200) = true
        · simp only [h, h2, if_pos]
          simp only [execute_sql_query, hc]
          exact pyStartsWith_append_right _ _ _ (by decide)
        · simp only [h, Bool.not_eq_true] at h2
          simp only [h, h2, Bool.false_eq_true, if_false]
          exact pyStartsWith_append_right _ _ _ (by decide)
  · intro hc hx
    simp only [execute_sql_query, hc, hx]
    exact pyStartsWith_append_right _ _ _ (by decide)
  · intro hc hsel hcm results rc hx
    simp only [execute_sql_query, hc, hx, hsel, Bool.false_eq_true, if_false, hcm]
    exact pyStartsWith_append_right _ _ _ (by decide)
  · intro hc hshow
    refine ⟨?_, ?_, ?_, ?_⟩
    · simp only [list_tables, hc, hshow]
      exact pyStartsWith_append_right _ _ _ (by decide)
    · simp only [describe_table, hc, hshow]
      exact pyStartsWith_append_right _ _ _ (by decide)
    · simp only [get_table_data, hc, hshow]
      exact pyStartsWith_append_right _ _ _ (by decide)
    · simp only [get_database_schema, hc, hshow]
      exact pyStartsWith_append_right _ _ _ (by decide)
  · intro hc trows n hshow hmem
    refine ⟨?_, ?_, ?_⟩
    · intro hdesc
      simp only [describe_table, hc, hshow, hmem, eq_self_iff_true, if_true, hdesc]
      exact pyStartsWith_append_right _ _ _ (by decide)
    · intro cols k hdok
      refine ⟨?_, ?_⟩
      · intro hcnt
        simp only [describe_table, hc, hshow, hmem, eq_self_iff_true, if_true, hdok, hcnt]
        exact pyStartsWith_append_right _ _ _ (by decide)
      · intro j hcnt
        simp only [describe_table, hc, hshow, hmem, eq_self_iff_true, if_true, hdok, hcnt,
          List.head?]
        decide
    · intro hlim
      simp only [get_table_data, hc, hshow, hmem, eq_self_iff_true, if_true, hlim]
      exact pyStartsWith_append_right _ _ _ (by decide)
  · intro hc trows n hshow hloop
    cases hp : schemaLoop w (trows.map firstValue) with
    | mk r evs =>
      rw [hp] at hloop
      simp only at hloop
      subst hloop
      simp only [get_database_schema, hc, hshow, hp]
      exact pyStartsWith_append_right _ _ _ (by decide)
  · intro mm h
    simp only [natural_language_query, natural_language_to_sql, query_ollama, h]
    exact pyStartsWith_append_right _ _ _ (by decide)
  · intro s b h hs
    have h2 : (s == 200) = false := by simpa using hs
    simp only [natural_language_query, natural_language_to_sql, query_ollama, h, h2,
      Bool.false_eq_true, if_false]
    exact pyStartsWith_append_right _ _ _ (by decide)
  · intro b h
    simp [natural_language_query, natural_language_to_sql, query_ollama, h]

/-- A world whose driver accepts statements but whose commit fails. -/
def wCommitFail : World :=
  { connectErr := none
    exec := fun _ => .ok ([], 2)
    commitErr := some "Lock wait timeout exceeded"
    ollama := fun _ => .err "model down"
    ollamaUrl := "http://localhost:11434"
    ollamaModel := "llama3.2" }

/-- A world with one table whose `SHOW TABLES` succeeds and every other
statement fails. -/
def wDescFail : World :=
  { connectErr := none
    exec := fun s =>
      if s == "SHOW TABLES" then .ok ([[("Tables_in_test_db", "employees")]], 1)
      else .error "command denied to user"
    commitErr := none
    ollama := fun _ => .err "model down"
    ollamaUrl := "http://localhost:11434"
    ollamaModel := "llama3.2" }

/-- A world where `SHOW TABLES` and `DESCRIBE employees` succeed but the
`COUNT(*)` query fails. -/
def wCountFail : World :=
  { connectErr := none
    exec := fun s =>
      if s == "SHOW TABLES" then .ok ([[("Tables_in_test_db", "employees")]], 1)
      else if s == "DESCRIBE employees" then .ok ([[("Field", "id")]], 0)
      else .error "COUNT failed"
    commitErr := none
    ollama := fun _ => .err "model down"
    ollamaUrl := "http://localhost:11434"
    ollamaModel := "llama3.2" }

/-- A world where the `COUNT(*)` cursor yields no row, so
`fetchone()` returns `None`. -/
def wCountEmpty : World :=
  { connectErr := none
    exec := fun s =>
      if s == "SHOW TABLES" then .ok ([[("Tables_in_test_db", "employees")]], 1)
      else if s == "DESCRIBE employees" then .ok ([[("Field", "id")]], 0)
      else .ok ([], 0)
    commitErr := none
    ollama := fun _ => .err "model down"
    ollamaUrl := "http://localhost:11434"
    ollamaModel := "llama3.2" }

/-- Witness for C8, exercising connection failure (all six operations),
executor driver failure, commit failure, `SHOW TABLES` failure in the
four helpers, `DESCRIBE`/`COUNT(*)`/empty-`COUNT`/`LIMIT`-query
failures, an introspection-loop failure, both model failures, and the
model-success reduction to the executor. -/
theorem boundary_error_strings_witness :
    wConnFail.connectErr = some "Can\x27t connect to MySQL server" ∧
    (pyStartsWith (execute_sql_query wConnFail "SELECT 1").1 "Error" = true ∧
     pyStartsWith (list_tables wConnFail).1 "Error" = true ∧
     pyStartsWith (describe_table wConnFail "users").1 "Error" = true ∧
     pyStartsWith (get_table_data wConnFail "users" 10).1 "Error" = true ∧
     pyStartsWith (get_database_schema wConnFail).1 "Error" = true ∧
     pyStartsWith (natural_language_query wConnFail "list users").1 "Error" = true) ∧
    pyStartsWith (execute_sql_query wExecFail "SELECT 1").1 "Error" = true ∧
    pyStartsWith (execute_sql_query wCommitFail "DELETE FROM employees").1 "Error" = true ∧
    (pyStartsWith (list_tables wExecFail).1 "Error" = true ∧
     pyStartsWith (describe_table wExecFail "users").1 "Error" = true ∧
     pyStartsWith (get_table_data wExecFail "users" 10).1 "Error" = true ∧
     pyStartsWith (get_database_schema wExecFail).1 "Error" = true) ∧
    pyStartsWith (describe_table wDescFail "employees").1 "Error" = true ∧
    pyStartsWith (describe_table wCountFail "employees").1 "Error" = true ∧
    pyStartsWith (describe_table wCountEmpty "employees").1 "Error" = true ∧
    pyStartsWith (get_table_data wDescFail "employees" 10).1 "Error" = true ∧
    pyStartsWith (get_database_schema wDescFail).1 "Error" = true ∧
    pyStartsWith (natural_language_query wExecFail "list users").1 "Error" = true ∧
    pyStartsWith (natural_language_query wOll500 "list users").1 "Error" = true ∧
    (natural_language_query wOll200 "list users").1 =
      (execute_sql_query wOll200 ((some "SELECT 1").getD "")).1 :=
  ⟨rfl,
   (boundary_error_strings wConnFail "SELECT 1" "users" "list users" 10
     "Can\x27t connect to MySQL server" "m").1 rfl,
   (boundary_error_strings wExecFail "SELECT 1" "users" "list users" 10 ""
     "You have an error in your SQL syntax").2.1 rfl rfl,
   (boundary_error_strings wCommitFail "DELETE FROM employees" "users" "list users" 10 ""
     "Lock wait timeout exceeded").2.2.1 rfl (by decide) rfl [] 2 rfl,
   (boundary_error_strings wExecFail "SELECT 1" "users" "list users" 10 ""
     "You have an error in your SQL syntax").2.2.2.1 rfl rfl,
   ((boundary_error_strings wDescFail "SELECT 1" "employees" "list users" 10 ""
     "command denied to user").2.2.2.2.1 rfl
     [[("Tables_in_test_db", "employees")]] 1 rfl (by decide)).1 rfl,
   (((boundary_error_strings wCountFail "SELECT 1" "employees" "list users" 10 ""
     "COUNT failed").2.2.2.2.1 rfl
     [[("Tables_in_test_db", "employees")]] 1 rfl (by decide)).2.1
     [[("Field", "id")]] 0 rfl).1 rfl,
   (((boundary_error_strings wCountEmpty "SELECT 1" "employees" "list users" 10 ""
     "m").2.2.2.2.1 rfl
     [[("Tables_in_test_db", "employees")]] 1 rfl (by decide)).2.1
     [[("Field", "id")]] 0 rfl).2 0 rfl,
   ((boundary_error_strings wDescFail "SELECT 1" "employees" "list users" 10 ""
     "command denied to user").2.2.2.2.1 rfl
     [[("Tables_in_test_db", "employees")]] 1 rfl (by decide)).2.2 rfl,
   (boundary_error_strings wDescFail "SELECT 1" "employees" "list users" 10 ""
     "command denied to user").2.2.2.2.2.1 rfl
     [[("Tables_in_test_db", "employees")]] 1 rfl rfl,
   (boundary_error_strings wExecFail "SELECT 1" "users" "list users" 10 ""
     "m").2.2.2.2.2.2.1 "model down" rfl,
   (boundary_error_strings wOll500 "SELECT 1" "users" "list users" 10 ""
     "m").2.2.2.2.2.2.2.1 500 none rfl (by decide),
   (boundary_error_strings wOll200 "SELECT 1" "users" "list users" 10 ""
     "m").2.2.2.2.2.2.2.2 (some "SELECT 1") rfl⟩

/-! ## C9: header round-trip through the Markdown-style table -/

/-- Split a character list at every occurrence of `sep` (the natural
reading of "parsing the header row back": cut the row at its `|`
delimiters). -/
def splitChar (sep : Char) : List Char → List (List Char)
  | [] => [[]]
  | c :: cs =>
    match splitChar sep cs with
    | [] => [[c]]
    | h :: t => if c = sep then [] :: h :: t else (c :: h) :: t

/-- Remove one leading space, if present. -/
def dropOneLead : List Char → List Char
  | ' ' :: cs => cs
  | cs => cs

/-- Remove one leading and one trailing space — the exact padding the
formatter places around each header cell. -/
def trimOneSpace (cs : List Char) : List Char :=
  (dropOneLead (dropOneLead cs).reverse).reverse

/-- Parse a header row `| h1 | h2 | ... |` back into its cells: split at
the `|` delimiters, discard the empty fragments before the first and
after the last delimiter, and strip the one-space padding of each
cell. -/
def parseHeaderRow (line : String) : List String :=
  ((splitChar '|' line.data).tail.dropLast).map (fun seg => String.mk (trimOneSpace seg))

/-- C9 counterexample: the first record's single key `a | b` renders to
the header row `| a | b |`, which parses back as the two keys
`a` and `b` — the round-trip fails (indeed `[["a"], ["b"]]` and
`[["a | b"]]` produce the very same header row, so no parser can undo
the formatter on unrestricted keys). -/
theorem header_roundtrip_counterexample :
    headersOf [[("a | b", "1")]] = ["a | b"] ∧
    renderHeaderRow (headersOf [[("a | b", "1")]]) = "| a | b |" ∧
    renderHeaderRow ["a", "b"] = "| a | b |" ∧
    parseHeaderRow (renderHeaderRow (headersOf [[("a | b", "1")]])) = ["a", "b"] ∧
    (["a", "b"] : List String) ≠ ["a | b"] := by
  decide

theorem splitChar_ne_nil (sep : Char) : ∀ cs, splitChar sep cs ≠ []
  | [] => by simp [splitChar]
  | c :: cs => by
    simp only [splitChar]
    cases h : splitChar sep cs with
    | nil => simp
    | cons hd tl =>
      by_cases hc : c = sep <;> simp [hc]

theorem splitChar_sep_cons (sep : Char) (cs : List Char) :
    splitChar sep (sep :: cs) = [] :: splitChar sep cs := by
  cases h : splitChar sep cs with
  | nil => exact absurd h (splitChar_ne_nil sep cs)
  | cons hd tl => simp [splitChar, h]

theorem splitChar_append (sep : Char) :
    ∀ a b, (∀ c ∈ a, c ≠ sep) →
      splitChar sep (a ++ sep :: b) = a :: splitChar sep b
  | [], b, _ => by
    simpa using splitChar_sep_cons sep b
  | c :: a, b, h => by
    have hc : c ≠ sep := h c (List.mem_cons_self c a)
    have ih := splitChar_append sep a b (fun x hx => h x (List.mem_cons_of_mem c hx))
    cases hs : splitChar sep b with
    | nil => exact absurd hs (splitChar_ne_nil sep b)
    | cons hd tl =>
      rw [hs] at ih
      simp [splitChar, ih, hc]

theorem sepBar_data : (" | " : String).data = [' ', '|', ' '] := rfl

theorem trimOneSpace_wrap (m : List Char) :
    trimOneSpace (' ' :: (m ++ [' '])) = m := by
  simp [trimOneSpace, dropOneLead, List.reverse_append]

theorem string_mk_data (s : String) : String.mk s.data = s := rfl

theorem splitChar_join_tail :
    ∀ hs : List String, hs ≠ [] →
      (∀ s ∈ hs, ∀ c ∈ s.data, c ≠ '|') →
      splitChar '|' (' ' :: ((pyJoin " | " hs).data ++ [' ', '|'])) =
        hs.map (fun h => ' ' :: (h.data ++ [' '])) ++ [[]]
  | [], hne, _ => absurd rfl hne
  | [h], _, hk => by
    have ha : ∀ c ∈ (' ' :: (h.data ++ [' '])), c ≠ '|' := by
      intro c hc
      rcases List.mem_cons.mp hc with rfl | hc2
      · decide
      rcases List.mem_append.mp hc2 with hc3 | hc4
      · exact hk h (by simp) c hc3
      · have : c = ' ' := by simpa using hc4
        subst this
        decide
    have harr : (' ' :: ((pyJoin " | " [h]).data ++ [' ', '|'])) =
        (' ' :: (h.data ++ [' '])) ++ ('|' :: ([] : List Char)) := by
      simp [pyJoin]
    rw [harr, splitChar_append '|' _ _ ha]
    rfl
  | h :: h' :: t, _, hk => by
    have ih := splitChar_join_tail (h' :: t) (by simp)
      (fun s hs => hk s (List.mem_cons_of_mem h hs))
    have ha : ∀ c ∈ (' ' :: (h.data ++ [' '])), c ≠ '|' := by
      intro c hc
      rcases List.mem_cons.mp hc with rfl | hc2
      · decide
      rcases List.mem_append.mp hc2 with hc3 | hc4
      · exact hk h (by simp) c hc3
      · have : c = ' ' := by simpa using hc4
        subst this
        decide
    have harr : (' ' :: ((pyJoin " | " (h :: h' :: t)).data ++ [' ', '|'])) =
        (' ' :: (h.data ++ [' '])) ++
          ('|' :: (' ' :: ((pyJoin " | " (h' :: t)).data ++ [' ', '|']))) := by
      simp [pyJoin, string_data_append, sepBar_data]
    rw [harr, splitChar_append '|' _ _ ha, ih]
    simp

/-- C9 amended: for every non-empty `RowSet` whose first record has at
least one column and whose column names contain no `|` character,
formatting and parsing the header row back reproduces the exact key
order of the first record; the second conjunct records that the
formatted table's header row is precisely `renderHeaderRow` of those
keys. -/
theorem header_row_roundtrip (results : List Row)
    (hne : headersOf results ≠ [])
    (hk : ∀ k ∈ headersOf results, ∀ c ∈ k.data, c ≠ '|') :
    parseHeaderRow (renderHeaderRow (headersOf results)) = headersOf results ∧
    formatResults results =
      "Query Results (" ++ toString results.length ++ " rows):\n\n"
        ++ renderHeaderRow (headersOf results) ++ "\n"
        ++ renderSepRow (headersOf results) ++ "\n"
        ++ String.join (results.map (fun row =>
             renderDataRow (headersOf results) row ++ "\n")) := by
  refine ⟨?_, rfl⟩
  unfold parseHeaderRow renderHeaderRow
  have hd : ("| " ++ pyJoin " | " (headersOf results) ++ " |").data =
      '|' :: (' ' :: ((pyJoin " | " (headersOf results)).data ++ [' ', '|'])) := by
    simp [string_data_append]
  rw [hd, splitChar_sep_cons, splitChar_join_tail _ hne hk]
  simp only [List.tail_cons]
  rw [List.dropLast_concat, List.map_map]
  have hfun : ((fun seg => String.mk (trimOneSpace seg))
      ∘ (fun h : String => ' ' :: (h.data ++ [' ']))) = id := by
    funext x
    show String.mk (trimOneSpace (' ' :: (x.data ++ [' ']))) = x
    rw [trimOneSpace_wrap, string_mk_data]
  rw [hfun, List.map_id]

/-- Witness for the amended C9 at a two-column row set. -/
theorem header_row_roundtrip_witness :
    headersOf [[("id", "1"), ("name", "Alice")]] ≠ [] ∧
    (∀ k ∈ headersOf [[("id", "1"), ("name", "Alice")]], ∀ c ∈ k.data, c ≠ '|') ∧
    (parseHeaderRow (renderHeaderRow (headersOf [[("id", "1"), ("name", "Alice")]])) =
        headersOf [[("id", "1"), ("name", "Alice")]] ∧
      formatResults [[("id", "1"), ("name", "Alice")]] =
        "Query Results (" ++ toString ([[("id", "1"), ("name", "Alice")]] : List Row).length
            ++ " rows):\n\n"
          ++ renderHeaderRow (headersOf [[("id", "1"), ("name", "Alice")]]) ++ "\n"
          ++ renderSepRow (headersOf [[("id", "1"), ("name", "Alice")]]) ++ "\n"
          ++ String.join (([[("id", "1"), ("name", "Alice")]] : List Row).map (fun row =>
               renderDataRow (headersOf [[("id", "1"), ("name", "Alice")]]) row ++ "\n"))) :=
  ⟨by decide, by decide,
    header_row_roundtrip [[("id", "1"), ("name", "Alice")]] (by decide) (by decide)⟩
